import Mathlib

/-!
Verification of the BOM platform backend transport layer (src/backend/main.py)
and, where the service layer is not part of the available sources, of the
orchestrator / knowledge-base contracts modelled from the specification.
-/

namespace BOM

/-- A FastAPI `HTTPException`: HTTP status code plus a detail string. -/
structure HTTPError where
  status_code : Nat
  detail : String
deriving DecidableEq, Repr

/-- Models starlette's `HTTPException.__str__`, which renders as
`"{status_code}: {detail}"`; this is what `str(e)` produces when a handler
formats a caught `HTTPException` into a message. -/
def HTTPError.str (e : HTTPError) : String :=
  toString e.status_code ++ ": " ++ e.detail

/-- An uploaded file as the handlers see it: only the filename is relevant
to the control flow of `main.py` (file contents are passed through opaquely). -/
structure UploadFile where
  filename : String
deriving DecidableEq, Repr

/-- One element of the sequence returned by
`workflow_service.download_files_from_cloud(url)`: a `{filename, path}` dict. -/
structure FileInfo where
  filename : String
  path : String
deriving DecidableEq, Repr

/-- One invocation of `workflow_service.start_workflow` as made by the
handlers in `main.py`, recording the arguments passed. -/
structure StartCall where
  workflow_id : String
  workflow_name : String
  wi_filename : String
  item_master : Option String
  comparison_mode : String
deriving DecidableEq, Repr

/-- The observable outcome of running one upload handler: the HTTP response
(`Except` for raised `HTTPException`s), the list of `start_workflow`
invocations the handler made, and the list of `str(uuid.uuid4())` ids it
generated, in order. -/
structure HandlerRun (α : Type) where
  response : Except HTTPError α
  started : List StartCall
  ids_generated : List String
deriving Repr

/-- Embedding of the `upload_documents` handler
(`POST /api/autonomous/upload`, src/backend/main.py lines 165-199).

* `if not wi_document: raise HTTPException(400, "WI document is required")`
* `if comparison_mode == 'full' and not item_master: raise HTTPException(400,
  "Item Master is required for full comparison mode")`
* only then `workflow_id = str(uuid.uuid4())` (modelled by `fresh`) and
  `workflow_service.start_workflow(...)`, returning the workflow id and the
  message `'Processing started successfully'`.

The `except HTTPException as e: raise e` clause re-raises the 400s unchanged,
so the error branches surface exactly the inner `HTTPException`. -/
def upload_documents (wi_document : Option UploadFile) (workflow_name : String)
    (item_master : Option UploadFile) (comparison_mode : String)
    (fresh : String) : HandlerRun (String × String) :=
  match wi_document with
  | none =>
      { response := .error ⟨400, "WI document is required"⟩
        started := []
        ids_generated := [] }
  | some wi =>
      if comparison_mode = "full" ∧ item_master = none then
        { response := .error ⟨400, "Item Master is required for full comparison mode"⟩
          started := []
          ids_generated := [] }
      else
        let workflow_id := fresh
        { response := .ok (workflow_id, "Processing started successfully")
          started := [{ workflow_id := workflow_id
                        workflow_name := workflow_name
                        wi_filename := wi.filename
                        item_master := item_master.map UploadFile.filename
                        comparison_mode := comparison_mode }]
          ids_generated := [workflow_id] }

/-- `"wi" in file_info['filename'].lower()` (src/backend/main.py line 230):
Python substring membership, expressed via `String.splitOn` — the pattern
occurs in `s` iff splitting `s` on it yields more than one piece. -/
def pyContains (s pat : String) : Bool :=
  (s.splitOn pat).length != 1

/-- `workflow_type = "WI" if "wi" in file_info['filename'].lower() else "QC"`
(src/backend/main.py line 230). -/
def workflow_type_of (filename : String) : String :=
  if pyContains filename.toLower "wi" then "WI" else "QC"

/-- The `StartCall` made for the `i`-th downloaded file in the
`upload_from_url` loop (src/backend/main.py lines 218-239): a fresh
`workflow_id`, a derived workflow name, the downloaded filename wrapped as a
`MockUploadFile`, no item master, and `comparison_mode='kb_only'`. -/
def batchCall (workflow_name : String) (fresh : Nat → String)
    (p : Nat × FileInfo) : StartCall :=
  { workflow_id := fresh p.1
    workflow_name := workflow_name ++ " - " ++ workflow_type_of p.2.filename
                       ++ " - " ++ p.2.filename
    wi_filename := p.2.filename
    item_master := none
    comparison_mode := "kb_only" }

/-- Embedding of the `upload_from_url` handler
(`POST /api/autonomous/upload_from_url`, src/backend/main.py lines 201-247).

`downloaded_files` is the value returned by
`workflow_service.download_files_from_cloud(request.url)` (that service is
not part of the available sources, so the handler is parametric in it);
`fresh i` models the `i`-th `str(uuid.uuid4())` call.

If the list is empty the handler raises `HTTPException(400, "Could not
retrieve files from the provided URL.")` — but unlike `upload_documents`
this handler has no `except HTTPException: raise` clause, so the bare
`except Exception as e` catches that very exception and re-raises it as
`HTTPException(500, f"Failed to start batch workflow: {str(e)}")`.
Otherwise it starts one workflow per file and returns all workflow ids with
the message `f'Started batch processing for {n} documents.'`. -/
def upload_from_url (workflow_name : String) (downloaded_files : List FileInfo)
    (fresh : Nat → String) : HandlerRun (List String × String) :=
  if downloaded_files.isEmpty then
    let inner : HTTPError := ⟨400, "Could not retrieve files from the provided URL."⟩
    { response := .error ⟨500, "Failed to start batch workflow: " ++ inner.str⟩
      started := []
      ids_generated := [] }
  else
    let calls := downloaded_files.enum.map (batchCall workflow_name fresh)
    let workflow_ids := calls.map StartCall.workflow_id
    { response := .ok (workflow_ids,
        "Started batch processing for " ++ toString workflow_ids.length ++ " documents.")
      started := calls
      ids_generated := workflow_ids }

/-- The workflow pipeline states of spec §4.4:
`CREATED → EXTRACTING → MATCHING → AWAITING_REVIEW → COMPLETED`, with the
parallel terminal `FAILED`. -/
inductive Status where
  | CREATED
  | EXTRACTING
  | MATCHING
  | AWAITING_REVIEW
  | COMPLETED
  | FAILED
deriving DecidableEq, Repr, Fintype

/-- Position of a status along the pipeline; `FAILED` sits above every
non-terminal state, so every legal transition strictly increases the rank. -/
def pipeline_rank : Status → Nat
  | .CREATED => 0
  | .EXTRACTING => 1
  | .MATCHING => 2
  | .AWAITING_REVIEW => 3
  | .COMPLETED => 4
  | .FAILED => 5

/-- Modelled from the spec: the Workflow Orchestrator's state machine is not
under src/ (only the transport shim is). Spec §4.4 lists the transitions
`CREATED → EXTRACTING`, `EXTRACTING → MATCHING`, `MATCHING → AWAITING_REVIEW`,
`AWAITING_REVIEW → COMPLETED`, and "any stage → FAILED" from any non-terminal
state, with `FAILED` (and `COMPLETED`) terminal. -/
def wf_step (s t : Status) : Bool :=
  match s, t with
  | .CREATED, .EXTRACTING => true
  | .EXTRACTING, .MATCHING => true
  | .MATCHING, .AWAITING_REVIEW => true
  | .AWAITING_REVIEW, .COMPLETED => true
  | s, .FAILED => !(s == .COMPLETED) && !(s == .FAILED)
  | _, _ => false

/-- Errors of the service layer, following the spec §7 taxonomy; `msg` is the
exception's message, i.e. what Python's `str(e)` renders. -/
inductive ServiceError where
  | notFound (msg : String)
  | conflict (msg : String)
deriving DecidableEq, Repr

/-- `str(e)` for a service-layer exception: its message. -/
def ServiceError.str : ServiceError → String
  | .notFound msg => msg
  | .conflict msg => msg

/-- One workflow record as far as the results endpoints are concerned:
its status and its stored results payload; `matchList` models the
`matches` list of the results payload. -/
structure WorkflowRec (M S : Type) where
  status : Status
  matchList : List M
  summary : S

/-- The orchestrator's workflow table: workflow id → record, `none` for
unknown ids. -/
def WFStore (M S : Type) : Type := String → Option (WorkflowRec M S)

/-- Modelled from the spec: `WorkflowService.update_workflow_results` is not
under src/. Spec §4.4: `updateResults(id, matches, summary)` fails if the
workflow is not in `AWAITING_REVIEW` or `COMPLETED` (`ConflictError`, §7);
otherwise it overwrites the stored MatchResults and summary with the
client-provided values and moves `AWAITING_REVIEW → COMPLETED`. Unknown ids
fail with `NotFoundError` (§7). -/
def svc_update_workflow_results {M S : Type} (store : WFStore M S) (id : String)
    (matchList : List M) (summary : S) : Except ServiceError (WFStore M S) :=
  match store id with
  | none => .error (.notFound ("Workflow " ++ id ++ " not found"))
  | some w =>
      if w.status = .AWAITING_REVIEW ∨ w.status = .COMPLETED then
        .ok (fun j => if j = id then
              some { status := .COMPLETED, matchList := matchList, summary := summary }
            else store j)
      else
        .error (.conflict ("Workflow " ++ id ++ " is not in AWAITING_REVIEW or COMPLETED"))

/-- Modelled from the spec: `WorkflowService.get_workflow_results` is not
under src/. Spec §4.4: `getResults(id) → {matches, summary}` fails with
`NotFoundError` if the workflow has not yet reached
`AWAITING_REVIEW`/`COMPLETED`, or returns the failed indicator if `FAILED`. -/
def svc_get_workflow_results {M S : Type} (store : WFStore M S) (id : String) :
    Except ServiceError (List M × S) :=
  match store id with
  | none => .error (.notFound ("Workflow " ++ id ++ " not found"))
  | some w =>
      if w.status = .AWAITING_REVIEW ∨ w.status = .COMPLETED then
        .ok (w.matchList, w.summary)
      else
        .error (.notFound ("Results for workflow " ++ id ++ " not available"))

/-- Embedding of the `update_workflow_results` handler
(`POST /api/autonomous/workflow/{workflow_id}/results`, src/backend/main.py
lines 268-275): it calls `workflow_service.update_workflow_results` and its
bare `except Exception as e` clause turns EVERY service failure into
`HTTPException(status_code=500, detail=f"Failed to update results: {str(e)}")`.
Returns the HTTP response together with the resulting store. -/
def update_workflow_results_endpoint {M S : Type} (store : WFStore M S)
    (workflow_id : String) (matchList : List M) (summary : S) :
    Except HTTPError String × WFStore M S :=
  match svc_update_workflow_results store workflow_id matchList summary with
  | .ok store' => (.ok "Results updated successfully", store')
  | .error e => (.error ⟨500, "Failed to update results: " ++ e.str⟩, store)

/-- Embedding of the `get_workflow_results` handler
(`GET /api/autonomous/workflow/{workflow_id}/results`, src/backend/main.py
lines 259-266): it returns the service result, and its `except Exception`
clause turns every failure into
`HTTPException(status_code=404, detail=f"Results not found: {str(e)}")`. -/
def get_workflow_results_endpoint {M S : Type} (store : WFStore M S)
    (workflow_id : String) : Except HTTPError (List M × S) :=
  match svc_get_workflow_results store workflow_id with
  | .ok r => .ok r
  | .error e => .error ⟨404, "Results not found: " ++ e.str⟩

/-- A one-workflow store used as concrete input: `"w1"` in the given status
with empty results, every other id unknown. -/
def oneWorkflowStore (s : Status) : WFStore String String :=
  fun j => if j = "w1" then some { status := s, matchList := [], summary := "" } else none

/-- Lifecycle status of a knowledge-base item (spec §3):
pending / approved / rejected. -/
inductive KBStatus where
  | pending
  | approved
  | rejected
deriving DecidableEq, Repr

/-- A knowledge-base item as the approve/reject/delete operations see it: its
id (`ι` is the id type) and its lifecycle status. -/
structure KBItem (ι : Type) where
  id : ι
  status : KBStatus
deriving DecidableEq, Repr

/-- Mark one item approved if it is the pending item with the given id,
leave it unchanged otherwise. -/
def approve_mark {ι : Type} [DecidableEq ι] (i : ι) (it : KBItem ι) : KBItem ι :=
  if it.id = i ∧ it.status = KBStatus.pending then { it with status := KBStatus.approved }
  else it

/-- Modelled from the spec: processing of one id by
`KnowledgeBaseService.approve_items` (not under src/). Spec §4.3: sets
status=approved for the item currently pending under this id and counts it;
an id not found or not currently pending is silently skipped (count 0). -/
def approve_one {ι : Type} [DecidableEq ι] (kb : List (KBItem ι)) (i : ι) :
    List (KBItem ι) × Nat :=
  if kb.any (fun it => decide (it.id = i ∧ it.status = KBStatus.pending)) then
    (kb.map (approve_mark i), 1)
  else (kb, 0)

/-- One step of the fold over the submitted id list: apply `approve_one` and
accumulate the count of items actually transitioned. -/
def approve_step {ι : Type} [DecidableEq ι] (acc : List (KBItem ι) × Nat) (i : ι) :
    List (KBItem ι) × Nat :=
  ((approve_one acc.1 i).1, acc.2 + (approve_one acc.1 i).2)

/-- Modelled from the spec: `KnowledgeBaseService.approve_items` is not under
src/. Spec §4.3: `approveItems(ids) → count actually transitioned` — sets
status=approved for items currently pending; ids not found or not pending are
silently skipped and excluded from the count (idempotent, no error on partial
mismatch). Returns the updated store and the count. -/
def approve_items {ι : Type} [DecidableEq ι] (kb : List (KBItem ι)) (ids : List ι) :
    List (KBItem ι) × Nat :=
  ids.foldl approve_step (kb, 0)

/-- Relation between an item before and after an approval pass: either
untouched, or transitioned from pending to approved; the id never changes. -/
def StepRel {ι : Type} (a b : KBItem ι) : Prop :=
  b.id = a.id
    ∧ (b = a ∨ (a.status = KBStatus.pending ∧ b = { a with status := KBStatus.approved }))

/-- Number of positions (paired positionally) whose status changed from
pending to approved between two snapshots of the store. -/
def transitioned {ι : Type} (kb kb' : List (KBItem ι)) : Nat :=
  (kb.zip kb').countP
    (fun p => decide (p.1.status = KBStatus.pending ∧ p.2.status = KBStatus.approved))

/-- Modelled from the spec: `KnowledgeBaseService.delete_item` is not under
src/. Spec §4.3: `deleteItem(id) → void`, fails with `NotFoundError` if
absent. -/
def delete_item {ι : Type} [DecidableEq ι] (kb : List (KBItem ι)) (i : ι) :
    Except ServiceError (List (KBItem ι)) :=
  if kb.any (fun it => decide (it.id = i)) then
    .ok (kb.filter (fun it => decide ¬(it.id = i)))
  else
    .error (.notFound "Item not found")

/-- Embedding of the `delete_knowledge_base_item` handler
(`DELETE /api/knowledge-base/{item_id}`, src/backend/main.py lines 156-163):
it calls `kb_service.delete_item(item_id)` and its bare `except Exception as
e` clause turns EVERY service failure — including `NotFoundError` — into
`HTTPException(status_code=500, detail=str(e))`. -/
def delete_knowledge_base_item_endpoint {ι : Type} [DecidableEq ι]
    (kb : List (KBItem ι)) (item_id : ι) :
    Except HTTPError String × List (KBItem ι) :=
  match delete_item kb item_id with
  | .ok kb' => (.ok "Item deleted successfully", kb')
  | .error e => (.error ⟨500, e.str⟩, kb)

end BOM

namespace BOM

/-- The workflow ids generated by the batch loop are `fresh` applied to the
indices `0..n-1`, in order. -/
theorem upload_from_url_ids (workflow_name : String) (files : List FileInfo)
    (fresh : Nat → String) (h : files.isEmpty = false) :
    (upload_from_url workflow_name files fresh).started.map StartCall.workflow_id
      = (List.range files.length).map fresh := by
  simp only [upload_from_url, h, Bool.false_eq_true, if_false, List.map_map]
  have : (StartCall.workflow_id ∘ batchCall workflow_name fresh)
      = fresh ∘ Prod.fst := by
    funext p
    rfl
  rw [this, ← List.map_map, List.enum_map_fst]

/-- C1: calling the document-upload endpoint with `comparison_mode = 'full'`
and no item-master file is rejected with HTTP 400
"Item Master is required for full comparison mode", before any workflow id is
generated and before `start_workflow` is invoked. -/
theorem C1_full_mode_without_item_master_rejected
    (wi : UploadFile) (workflow_name : String) (mode : String) (fresh : String)
    (hmode : mode = "full") :
    let r := upload_documents (some wi) workflow_name none mode fresh
    r.response = .error ⟨400, "Item Master is required for full comparison mode"⟩
      ∧ r.started = [] ∧ r.ids_generated = [] := by
  subst hmode
  simp [upload_documents]

/-- Witness for C1 at a concrete request. -/
theorem C1_witness :
    ("full" : String) = "full" ∧
      ((upload_documents (some ⟨"wi.pdf"⟩) "run1" none "full" "id-1").response
          = .error ⟨400, "Item Master is required for full comparison mode"⟩
        ∧ (upload_documents (some ⟨"wi.pdf"⟩) "run1" none "full" "id-1").started = []
        ∧ (upload_documents (some ⟨"wi.pdf"⟩) "run1" none "full" "id-1").ids_generated = []) :=
  ⟨rfl, C1_full_mode_without_item_master_rejected ⟨"wi.pdf"⟩ "run1" "full" "id-1" rfl⟩

/-- C2: evaluation of `upload_from_url` at the failing input (empty download
list). No workflow is started, but the response is HTTP 500 — the inner
`HTTPException(400, "Could not retrieve files from the provided URL.")` is
swallowed by the handler's bare `except Exception` clause and re-raised as an
internal-server-error, contradicting the claimed client-facing 400. -/
theorem C2_empty_download_yields_500 :
    (upload_from_url "Batch" [] (fun n => toString n)).response
        = .error ⟨500,
            "Failed to start batch workflow: 400: Could not retrieve files from the provided URL."⟩
      ∧ (upload_from_url "Batch" [] (fun n => toString n)).started = []
      ∧ (500 : Nat) ≠ 400 := by
  refine ⟨?_, rfl, by decide⟩
  rfl

/-- C3: for a non-empty download of `n` files, the batch endpoint makes one
`start_workflow` call per file (in order of the downloaded filenames), with
pairwise-distinct fresh workflow ids, and returns exactly those `n` ids to
the caller. -/
theorem C3_batch_one_workflow_per_file
    (workflow_name : String) (files : List FileInfo) (fresh : Nat → String)
    (hne : files ≠ [])
    (hinj : ∀ i < files.length, ∀ j < files.length, fresh i = fresh j → i = j) :
    (upload_from_url workflow_name files fresh).started.length = files.length
    ∧ (upload_from_url workflow_name files fresh).started.map StartCall.wi_filename
        = files.map FileInfo.filename
    ∧ ((upload_from_url workflow_name files fresh).started.map StartCall.workflow_id).Nodup
    ∧ (upload_from_url workflow_name files fresh).response
        = .ok ((upload_from_url workflow_name files fresh).started.map StartCall.workflow_id,
            "Started batch processing for " ++ toString files.length ++ " documents.") := by
  have hempty : files.isEmpty = false := by
    cases files with
    | nil => exact absurd rfl hne
    | cons a t => rfl
  have hids := upload_from_url_ids workflow_name files fresh hempty
  refine ⟨?_, ?_, ?_, ?_⟩
  · simp [upload_from_url, hempty]
  · simp only [upload_from_url, hempty, Bool.false_eq_true, if_false, List.map_map]
    have : (StartCall.wi_filename ∘ batchCall workflow_name fresh)
        = FileInfo.filename ∘ Prod.snd := by
      funext p
      rfl
    rw [this, ← List.map_map, List.enum_map_snd]
  · rw [hids]
    refine List.Nodup.map_on ?_ (List.nodup_range files.length)
    intro i hi j hj hf
    exact hinj i (List.mem_range.mp hi) j (List.mem_range.mp hj) hf
  · have hlen : ((upload_from_url workflow_name files fresh).started.map
        StartCall.workflow_id).length = files.length := by
      rw [hids]
      simp
    simp only [upload_from_url, hempty, Bool.false_eq_true, if_false] at hlen ⊢
    rw [← hlen]

/-- Witness for C3 at a concrete two-file download. -/
theorem C3_witness :
    (upload_from_url "B" [⟨"a.pdf", "pa"⟩, ⟨"wi.pdf", "pb"⟩] (fun n => toString n)).started.length
        = ([⟨"a.pdf", "pa"⟩, ⟨"wi.pdf", "pb"⟩] : List FileInfo).length
    ∧ (upload_from_url "B" [⟨"a.pdf", "pa"⟩, ⟨"wi.pdf", "pb"⟩]
          (fun n => toString n)).started.map StartCall.wi_filename
        = ([⟨"a.pdf", "pa"⟩, ⟨"wi.pdf", "pb"⟩] : List FileInfo).map FileInfo.filename
    ∧ ((upload_from_url "B" [⟨"a.pdf", "pa"⟩, ⟨"wi.pdf", "pb"⟩]
          (fun n => toString n)).started.map StartCall.workflow_id).Nodup
    ∧ (upload_from_url "B" [⟨"a.pdf", "pa"⟩, ⟨"wi.pdf", "pb"⟩]
          (fun n => toString n)).response
        = .ok ((upload_from_url "B" [⟨"a.pdf", "pa"⟩, ⟨"wi.pdf", "pb"⟩]
              (fun n => toString n)).started.map StartCall.workflow_id,
            "Started batch processing for "
              ++ toString ([⟨"a.pdf", "pa"⟩, ⟨"wi.pdf", "pb"⟩] : List FileInfo).length
              ++ " documents.") :=
  C3_batch_one_workflow_per_file "B" [⟨"a.pdf", "pa"⟩, ⟨"wi.pdf", "pb"⟩]
    (fun n => toString n) (by decide) (by decide)

/-- C10: every `start_workflow` call made by the upload-from-URL batch path
has `comparison_mode = 'kb_only'` and no item-master document, whatever the
request and the downloaded files are. -/
theorem C10_batch_always_kb_only_no_item_master
    (workflow_name : String) (files : List FileInfo) (fresh : Nat → String) :
    ∀ c ∈ (upload_from_url workflow_name files fresh).started,
      c.comparison_mode = "kb_only" ∧ c.item_master = none := by
  intro c hc
  by_cases h : files.isEmpty
  · simp [upload_from_url, h] at hc
  · rw [Bool.not_eq_true] at h
    simp only [upload_from_url, h, Bool.false_eq_true, if_false, List.mem_map] at hc
    obtain ⟨p, _, rfl⟩ := hc
    exact ⟨rfl, rfl⟩

/-- Witness for C10 at a concrete one-file download. -/
theorem C10_witness :
    (batchCall "B" (fun n => toString n) (0, ⟨"a.pdf", "pa"⟩)).comparison_mode = "kb_only"
    ∧ (batchCall "B" (fun n => toString n) (0, ⟨"a.pdf", "pa"⟩)).item_master = none :=
  C10_batch_always_kb_only_no_item_master "B" [⟨"a.pdf", "pa"⟩] (fun n => toString n)
    (batchCall "B" (fun n => toString n) (0, ⟨"a.pdf", "pa"⟩))
    (by
      rw [show (upload_from_url "B" [⟨"a.pdf", "pa"⟩] (fun n => toString n)).started
          = [batchCall "B" (fun n => toString n) (0, ⟨"a.pdf", "pa"⟩)] from rfl]
      exact List.mem_singleton_self _)

/-- C4 counterexample: with workflow `"w1"` in state `CREATED` (not in
`AWAITING_REVIEW` or `COMPLETED`), the update-results endpoint surfaces the
failure as HTTP 500 (an internal server error), not as a 409
rejected-operation condition, because its bare `except Exception` clause maps
every service failure to status 500. -/
theorem C4_counterexample_update_wrong_state_is_500 :
    (update_workflow_results_endpoint (oneWorkflowStore .CREATED) "w1" ["m"] "s").1
        = .error ⟨500, "Failed to update results: Workflow w1 is not in AWAITING_REVIEW or COMPLETED"⟩
    ∧ (500 : Nat) ≠ 409 :=
  ⟨rfl, by decide⟩

/-- C4 (amended): whenever `updateResults` is invoked on a workflow that is
not in `AWAITING_REVIEW` or `COMPLETED`, the service operation fails with a
`ConflictError`, but the endpoint surfaces that failure to the caller as an
HTTP 500 internal-server-error wrapping the message (not as a conflict
condition), and the store is left unchanged. -/
theorem C4_amended_update_wrong_state_surfaced_as_500
    {M S : Type} (store : WFStore M S) (id : String) (w : WorkflowRec M S)
    (matchList : List M) (summary : S)
    (hw : store id = some w)
    (h1 : w.status ≠ .AWAITING_REVIEW) (h2 : w.status ≠ .COMPLETED) :
    svc_update_workflow_results store id matchList summary
        = .error (.conflict ("Workflow " ++ id ++ " is not in AWAITING_REVIEW or COMPLETED"))
    ∧ (update_workflow_results_endpoint store id matchList summary).1
        = .error ⟨500, "Failed to update results: "
            ++ ("Workflow " ++ id ++ " is not in AWAITING_REVIEW or COMPLETED")⟩
    ∧ (update_workflow_results_endpoint store id matchList summary).2 = store := by
  have hcond : ¬(w.status = .AWAITING_REVIEW ∨ w.status = .COMPLETED) := by
    rintro (h | h)
    · exact h1 h
    · exact h2 h
  have hsvc : svc_update_workflow_results store id matchList summary
      = .error (.conflict ("Workflow " ++ id ++ " is not in AWAITING_REVIEW or COMPLETED")) := by
    simp only [svc_update_workflow_results, hw]
    rw [if_neg hcond]
  refine ⟨hsvc, ?_, ?_⟩
  · simp [update_workflow_results_endpoint, hsvc, ServiceError.str]
  · simp [update_workflow_results_endpoint, hsvc]

/-- Witness for the amended C4 at a concrete `CREATED` workflow. -/
theorem C4_witness :
    svc_update_workflow_results (oneWorkflowStore .CREATED) "w1" ["edited"] "sum"
        = .error (.conflict ("Workflow " ++ "w1" ++ " is not in AWAITING_REVIEW or COMPLETED"))
    ∧ (update_workflow_results_endpoint (oneWorkflowStore .CREATED) "w1" ["edited"] "sum").1
        = .error ⟨500, "Failed to update results: "
            ++ ("Workflow " ++ "w1" ++ " is not in AWAITING_REVIEW or COMPLETED")⟩
    ∧ (update_workflow_results_endpoint (oneWorkflowStore .CREATED) "w1" ["edited"] "sum").2
        = oneWorkflowStore .CREATED :=
  C4_amended_update_wrong_state_surfaced_as_500 (oneWorkflowStore .CREATED) "w1"
    { status := .CREATED, matchList := [], summary := "" } ["edited"] "sum"
    rfl (by decide) (by decide)

/-- C6: on a workflow whose state accepts result edits (`AWAITING_REVIEW` or
`COMPLETED`), `updateResults(id, matches, summary)` succeeds and a subsequent
`getResults(id)` returns exactly the submitted matches and summary, with no
transformation. -/
theorem C6_update_then_get_roundtrip
    {M S : Type} (store : WFStore M S) (id : String) (w : WorkflowRec M S)
    (matchList : List M) (summary : S)
    (hw : store id = some w)
    (hs : w.status = .AWAITING_REVIEW ∨ w.status = .COMPLETED) :
    (update_workflow_results_endpoint store id matchList summary).1
        = .ok "Results updated successfully"
    ∧ get_workflow_results_endpoint
        (update_workflow_results_endpoint store id matchList summary).2 id
        = .ok (matchList, summary) := by
  have hsvc : svc_update_workflow_results store id matchList summary
      = .ok (fun j => if j = id then
            some { status := .COMPLETED, matchList := matchList, summary := summary }
          else store j) := by
    simp only [svc_update_workflow_results, hw]
    rw [if_pos hs]
  constructor
  · simp [update_workflow_results_endpoint, hsvc]
  · simp [update_workflow_results_endpoint, hsvc,
      get_workflow_results_endpoint, svc_get_workflow_results]

/-- Witness for C6 at a concrete `AWAITING_REVIEW` workflow. -/
theorem C6_witness :
    (update_workflow_results_endpoint (oneWorkflowStore .AWAITING_REVIEW) "w1"
        ["match1"] "summary1").1 = .ok "Results updated successfully"
    ∧ get_workflow_results_endpoint
        (update_workflow_results_endpoint (oneWorkflowStore .AWAITING_REVIEW) "w1"
          ["match1"] "summary1").2 "w1"
        = .ok (["match1"], "summary1") :=
  C6_update_then_get_roundtrip (oneWorkflowStore .AWAITING_REVIEW) "w1"
    { status := .AWAITING_REVIEW, matchList := [], summary := "" } ["match1"] "summary1"
    rfl (Or.inl rfl)

/-- C8: the workflow status advances strictly along the pipeline order
`CREATED → EXTRACTING → MATCHING → AWAITING_REVIEW → COMPLETED` (every legal
transition strictly increases the pipeline rank, so no transition reverts to
an earlier state), the only other transition is to `FAILED`, which is
reachable from every non-terminal state, and `FAILED` and `COMPLETED` are
terminal. -/
theorem C8_status_monotone_and_failed_terminal :
    (∀ s t : Status, wf_step s t = true → pipeline_rank s < pipeline_rank t)
    ∧ (∀ s t : Status, wf_step s t = true → t = .FAILED
        ∨ pipeline_rank t = pipeline_rank s + 1)
    ∧ (∀ s : Status, s ≠ .COMPLETED → s ≠ .FAILED → wf_step s .FAILED = true)
    ∧ (∀ t : Status, wf_step .FAILED t = false)
    ∧ (∀ t : Status, wf_step .COMPLETED t = false) := by
  decide

/-- Witness for C8: a pipeline step strictly increases the rank, and `FAILED`
is reachable from `MATCHING`. -/
theorem C8_witness :
    pipeline_rank .CREATED < pipeline_rank .EXTRACTING
    ∧ wf_step .MATCHING .FAILED = true :=
  ⟨C8_status_monotone_and_failed_terminal.1 .CREATED .EXTRACTING (by decide),
   C8_status_monotone_and_failed_terminal.2.2.1 .MATCHING (by decide) (by decide)⟩

/-- `StepRel` is reflexive: leaving an item untouched is a legal step. -/
theorem steprel_refl {ι : Type} (a : KBItem ι) : StepRel a a :=
  ⟨rfl, Or.inl rfl⟩

/-- An item's status cannot be pending and approved at once. -/
theorem status_not_pending_and_approved {ι : Type} (x : KBItem ι) :
    (decide (x.status = KBStatus.pending ∧ x.status = KBStatus.approved)) = false := by
  cases h : x.status <;> simp [h]

/-- No status change between identical snapshots. -/
theorem transitioned_self {ι : Type} (kb : List (KBItem ι)) : transitioned kb kb = 0 := by
  induction kb with
  | nil => rfl
  | cons a t ih =>
    simp only [transitioned, List.zip_cons_cons, List.countP_cons,
      status_not_pending_and_approved, if_false] at ih ⊢
    simpa using ih

/-- Composition of two item-level steps: the result is again a step, and the
pending-to-approved indicator adds up (an item transitions across the two
steps iff it transitions in exactly one of them). -/
theorem steprel_comp {ι : Type} {a b c : KBItem ι}
    (hab : StepRel a b) (hbc : StepRel b c) :
    StepRel a c
    ∧ ((if (decide (a.status = KBStatus.pending ∧ c.status = KBStatus.approved)) then 1 else 0 : Nat)
        = (if (decide (a.status = KBStatus.pending ∧ b.status = KBStatus.approved)) then 1 else 0)
          + (if (decide (b.status = KBStatus.pending ∧ c.status = KBStatus.approved)) then 1
             else 0)) := by
  obtain ⟨hid1, h1⟩ := hab
  obtain ⟨hid2, h2⟩ := hbc
  rcases h1 with h1 | ⟨hap, h1⟩
  · rcases h2 with h2 | ⟨hbp, h2⟩
    · subst h1
      subst h2
      refine ⟨⟨rfl, Or.inl rfl⟩, ?_⟩
      simp only [status_not_pending_and_approved]
      rfl
    · subst h1
      subst h2
      exact ⟨⟨rfl, Or.inr ⟨hbp, rfl⟩⟩, by simp [hbp]⟩
  · rcases h2 with h2 | ⟨hbp, h2⟩
    · subst h2
      subst h1
      exact ⟨⟨rfl, Or.inr ⟨hap, rfl⟩⟩, by simp [hap]⟩
    · subst h1
      simp at hbp

/-- Composition of two store-level approval passes: the step relation
composes, and the transitioned counts add up. -/
theorem steprel_forall₂_comp {ι : Type} {l₁ l₂ l₃ : List (KBItem ι)}
    (h12 : List.Forall₂ StepRel l₁ l₂) (h23 : List.Forall₂ StepRel l₂ l₃) :
    List.Forall₂ StepRel l₁ l₃
      ∧ transitioned l₁ l₃ = transitioned l₁ l₂ + transitioned l₂ l₃ := by
  induction h12 generalizing l₃ with
  | nil =>
    cases h23
    exact ⟨List.Forall₂.nil, rfl⟩
  | @cons a b t₁ t₂ hab h12' ih =>
    cases h23 with
    | cons hbc h23' =>
      obtain ⟨hac, hcnt⟩ := steprel_comp hab hbc
      obtain ⟨hrel, hsum⟩ := ih h23'
      refine ⟨List.Forall₂.cons hac hrel, ?_⟩
      simp only [transitioned, List.zip_cons_cons, List.countP_cons] at hsum hcnt ⊢
      omega

/-- `approve_one` performs a legal approval pass on the store. -/
theorem approve_one_rel {ι : Type} [DecidableEq ι] (kb : List (KBItem ι)) (i : ι) :
    List.Forall₂ StepRel kb (approve_one kb i).1 := by
  by_cases h : kb.any (fun it => decide (it.id = i ∧ it.status = KBStatus.pending)) = true
  · simp only [approve_one, h, if_true]
    refine List.forall₂_map_right_iff.mpr (List.forall₂_same.mpr ?_)
    intro a _
    unfold approve_mark
    by_cases hc : a.id = i ∧ a.status = KBStatus.pending
    · rw [if_pos hc]
      exact ⟨rfl, Or.inr ⟨hc.2, rfl⟩⟩
    · rw [if_neg hc]
      exact steprel_refl a
  · rw [Bool.not_eq_true] at h
    simp only [approve_one, h, Bool.false_eq_true, if_false]
    exact List.forall₂_same.mpr fun a _ => steprel_refl a

/-- `approve_one` never changes the ids stored in the knowledge base. -/
theorem approve_one_idmap {ι : Type} [DecidableEq ι] (kb : List (KBItem ι)) (i : ι) :
    ((approve_one kb i).1).map KBItem.id = kb.map KBItem.id := by
  by_cases h : kb.any (fun it => decide (it.id = i ∧ it.status = KBStatus.pending)) = true
  · simp only [approve_one, h, if_true, List.map_map]
    have : (KBItem.id ∘ approve_mark i) = (KBItem.id : KBItem ι → ι) := by
      funext a
      unfold approve_mark
      by_cases hc : a.id = i ∧ a.status = KBStatus.pending
      · rw [Function.comp_apply, if_pos hc]
      · rw [Function.comp_apply, if_neg hc]
    rw [this]
  · rw [Bool.not_eq_true] at h
    simp only [approve_one, h, Bool.false_eq_true, if_false]

/-- In a store with pairwise-distinct ids, at most one item can match a given
id at all, so when one pending item matches, the matching count is one. -/
theorem count_pending_unique {ι : Type} [DecidableEq ι] (i : ι) :
    ∀ (kb : List (KBItem ι)),
      (kb.map KBItem.id).Nodup →
      kb.any (fun it => decide (it.id = i ∧ it.status = KBStatus.pending)) = true →
      kb.countP (fun it => decide (it.id = i ∧ it.status = KBStatus.pending)) = 1 := by
  intro kb
  induction kb with
  | nil =>
    intro _ hany
    simp at hany
  | cons a t ih =>
    intro hnd hany
    rw [List.map_cons, List.nodup_cons] at hnd
    obtain ⟨hna, hnt⟩ := hnd
    by_cases hpa : a.id = i ∧ a.status = KBStatus.pending
    · have hz : t.countP (fun it => decide (it.id = i ∧ it.status = KBStatus.pending)) = 0 := by
        rw [List.countP_eq_zero]
        intro b hb
        simp only [decide_eq_true_eq]
        rintro ⟨hbid, _⟩
        exact hna (List.mem_map.mpr ⟨b, hb, by rw [hbid, hpa.1]⟩)
      rw [List.countP_cons, hz]
      simp [hpa]
    · have hat : t.any (fun it => decide (it.id = i ∧ it.status = KBStatus.pending)) = true := by
        rcases List.any_eq_true.mp hany with ⟨x, hx, hpx⟩
        rcases List.mem_cons.mp hx with rfl | hxt
        · exact absurd (of_decide_eq_true hpx) hpa
        · exact List.any_eq_true.mpr ⟨x, hxt, hpx⟩
      rw [List.countP_cons, ih hnt hat]
      simp [hpa]

/-- `approve_one` counts exactly the items it transitions: one when a pending
item with the id exists (and ids are unique), zero otherwise. -/
theorem approve_one_count {ι : Type} [DecidableEq ι] (kb : List (KBItem ι)) (i : ι)
    (hnd : (kb.map KBItem.id).Nodup) :
    (approve_one kb i).2 = transitioned kb (approve_one kb i).1 := by
  by_cases h : kb.any (fun it => decide (it.id = i ∧ it.status = KBStatus.pending)) = true
  · simp only [approve_one, h, if_true]
    have hz : ∀ (l : List (KBItem ι)),
        l.zip (l.map (approve_mark i)) = l.map (fun a => (a, approve_mark i a)) := by
      intro l
      induction l with
      | nil => rfl
      | cons a t ih => simp [ih]
    rw [transitioned, hz, List.countP_map]
    have hp : ((fun p : KBItem ι × KBItem ι =>
          decide (p.1.status = KBStatus.pending ∧ p.2.status = KBStatus.approved))
            ∘ (fun a => (a, approve_mark i a)))
        = fun a => decide (a.id = i ∧ a.status = KBStatus.pending) := by
      funext a
      rw [Function.comp_apply]
      unfold approve_mark
      by_cases hc : a.id = i ∧ a.status = KBStatus.pending
      · rw [if_pos hc]
        simp [hc.1, hc.2]
      · rw [if_neg hc]
        have : (decide (a.status = KBStatus.pending ∧ a.status = KBStatus.approved)) = false := by
          cases hs : a.status <;> simp [hs]
        rw [this]
        simp [hc]
    rw [hp, count_pending_unique i kb hnd h]
  · rw [Bool.not_eq_true] at h
    simp only [approve_one, h, Bool.false_eq_true, if_false]
    exact (transitioned_self kb).symm

/-- Invariant of the fold at the heart of `approve_items`: relative to the
initial store `kb0`, the accumulator always equals the number of items
transitioned so far, and every item was either untouched or moved from
pending to approved. -/
theorem approve_fold {ι : Type} [DecidableEq ι] :
    ∀ (ids : List ι) (cur : List (KBItem ι)) (acc : Nat) (kb0 : List (KBItem ι)),
      List.Forall₂ StepRel kb0 cur →
      acc = transitioned kb0 cur →
      (cur.map KBItem.id).Nodup →
      List.Forall₂ StepRel kb0 (ids.foldl approve_step (cur, acc)).1
        ∧ (ids.foldl approve_step (cur, acc)).2
            = transitioned kb0 (ids.foldl approve_step (cur, acc)).1 := by
  intro ids
  induction ids with
  | nil =>
    intro cur acc kb0 h1 h2 _
    exact ⟨h1, h2⟩
  | cons i t ih =>
    intro cur acc kb0 h1 h2 hnd
    rw [List.foldl_cons]
    have hrel1 := approve_one_rel cur i
    have hcnt1 := approve_one_count cur i hnd
    have hid1 := approve_one_idmap cur i
    obtain ⟨hrel02, hsum⟩ := steprel_forall₂_comp h1 hrel1
    have happ : approve_step (cur, acc) i
        = ((approve_one cur i).1, acc + (approve_one cur i).2) := rfl
    rw [happ]
    refine ih (approve_one cur i).1 (acc + (approve_one cur i).2) kb0 hrel02 ?_ ?_
    · rw [hsum, h2, hcnt1]
    · rw [hid1]
      exact hnd

/-- C7: for every id list, `approveItems` returns exactly the number of items
it itself transitioned from pending to approved, and every stored item is
either untouched or moved from pending to approved (ids not found or not
pending are silently skipped); in particular an empty list is a no-op
returning 0, re-approving an already-approved item returns 0, and approving
`["A","B"]` where `"A"` is pending and `"B"` already rejected returns 1 with
`"B"` unchanged. -/
theorem C7_approve_items_exact_count {ι : Type} [DecidableEq ι]
    (kb : List (KBItem ι)) (ids : List ι)
    (hnd : (kb.map KBItem.id).Nodup) :
    (approve_items kb ids).2 = transitioned kb (approve_items kb ids).1
    ∧ List.Forall₂ StepRel kb (approve_items kb ids).1
    ∧ approve_items kb ([] : List ι) = (kb, 0)
    ∧ approve_items (approve_items [(⟨"A", .pending⟩ : KBItem String)] ["A"]).1 ["A"]
        = ([⟨"A", .approved⟩], 0)
    ∧ approve_items [(⟨"A", .pending⟩ : KBItem String), ⟨"B", .rejected⟩] ["A", "B"]
        = ([⟨"A", .approved⟩, ⟨"B", .rejected⟩], 1) := by
  obtain ⟨hrel, hcnt⟩ := approve_fold ids kb 0 kb
    (List.forall₂_same.mpr fun a _ => steprel_refl a)
    (transitioned_self kb).symm hnd
  exact ⟨hcnt, hrel, rfl, by decide, by decide⟩

/-- Witness for C7 at the concrete scenario-D store. -/
theorem C7_witness :
    (approve_items [(⟨"A", .pending⟩ : KBItem String), ⟨"B", .rejected⟩] ["A", "B"]).2
        = transitioned [(⟨"A", .pending⟩ : KBItem String), ⟨"B", .rejected⟩]
            (approve_items [(⟨"A", .pending⟩ : KBItem String), ⟨"B", .rejected⟩] ["A", "B"]).1
    ∧ List.Forall₂ StepRel [(⟨"A", .pending⟩ : KBItem String), ⟨"B", .rejected⟩]
        (approve_items [(⟨"A", .pending⟩ : KBItem String), ⟨"B", .rejected⟩] ["A", "B"]).1
    ∧ approve_items [(⟨"A", .pending⟩ : KBItem String), ⟨"B", .rejected⟩] ([] : List String)
        = ([⟨"A", .pending⟩, ⟨"B", .rejected⟩], 0)
    ∧ approve_items (approve_items [(⟨"A", .pending⟩ : KBItem String)] ["A"]).1 ["A"]
        = ([⟨"A", .approved⟩], 0)
    ∧ approve_items [(⟨"A", .pending⟩ : KBItem String), ⟨"B", .rejected⟩] ["A", "B"]
        = ([⟨"A", .approved⟩, ⟨"B", .rejected⟩], 1) :=
  C7_approve_items_exact_count [(⟨"A", .pending⟩ : KBItem String), ⟨"B", .rejected⟩]
    ["A", "B"] (by decide)

/-- C5 counterexample: deleting an absent knowledge-base item does fail with
`NotFoundError` in the service, but the endpoint surfaces it as HTTP 500 (an
internal server error), not as a 404 not-found condition, because its bare
`except Exception` clause maps every service failure to status 500. -/
theorem C5_counterexample_delete_missing_is_500 :
    delete_knowledge_base_item_endpoint ([] : List (KBItem Nat)) 1
        = (.error ⟨500, "Item not found"⟩, [])
    ∧ (500 : Nat) ≠ 404 :=
  ⟨rfl, by decide⟩

/-- C5 (amended): for every knowledge-base delete on an item id absent from
the store, `deleteItem` fails with `NotFoundError`, but the endpoint surfaces
that failure to the caller as an HTTP 500 internal-server-error carrying the
message (not as a not-found condition), leaving the store unchanged. -/
theorem C5_amended_delete_missing_surfaced_as_500 {ι : Type} [DecidableEq ι]
    (kb : List (KBItem ι)) (i : ι) (habs : ∀ it ∈ kb, it.id ≠ i) :
    delete_item kb i = .error (.notFound "Item not found")
    ∧ delete_knowledge_base_item_endpoint kb i = (.error ⟨500, "Item not found"⟩, kb) := by
  have hany : kb.any (fun it => decide (it.id = i)) = false := by
    rw [← Bool.not_eq_true, List.any_eq_true]
    rintro ⟨it, hmem, hit⟩
    exact habs it hmem (of_decide_eq_true hit)
  have hdel : delete_item kb i = .error (.notFound "Item not found") := by
    simp only [delete_item, hany, Bool.false_eq_true, if_false]
  refine ⟨hdel, ?_⟩
  simp only [delete_knowledge_base_item_endpoint, hdel]
  rfl

/-- Witness for the amended C5 at a concrete store without the id. -/
theorem C5_witness :
    delete_item [(⟨2, KBStatus.approved⟩ : KBItem Nat)] 1
        = .error (.notFound "Item not found")
    ∧ delete_knowledge_base_item_endpoint [(⟨2, KBStatus.approved⟩ : KBItem Nat)] 1
        = (.error ⟨500, "Item not found"⟩, [⟨2, KBStatus.approved⟩]) :=
  C5_amended_delete_missing_surfaced_as_500 [(⟨2, KBStatus.approved⟩ : KBItem Nat)] 1
    (by decide)

end BOM
